import Mathlib

/-!
Shallow embedding of the DataPlatform task scheduling engine
(`core_framework.h`, `data_management.h`, `algorithm_module.h`,
`task_management.h`) and proofs about its task lifecycle, priority
scheduler, registry API and the two concrete analysis algorithms the
claims exercise.  C++ doubles are modelled with exact rationals, C++
`std::map` with association lists, thrown exceptions with
`Except.error` carrying the `what()` string, and wall-clock time
points with a `Nat` instant passed in by the caller.
-/

namespace DataPlatform

/-- Task lifecycle states, mirroring the `TaskStatus` enum of
`task_management.h`. -/
inductive TaskStatus
  | CREATED
  | QUEUED
  | RUNNING
  | COMPLETED
  | FAILED
  | CANCELLED
  deriving DecidableEq

/-- Task priorities, mirroring the `TaskPriority` enum of
`task_management.h` (declaration order LOW, MEDIUM, HIGH, CRITICAL). -/
inductive TaskPriority
  | LOW
  | MEDIUM
  | HIGH
  | CRITICAL
  deriving DecidableEq

/-- Integral value of a priority: the underlying value of the C++ enum,
which is what `TaskComparator` compares with `<`. -/
def TaskPriority.toNat : TaskPriority → Nat
  | .LOW => 0
  | .MEDIUM => 1
  | .HIGH => 2
  | .CRITICAL => 3

/-- Result statuses, mirroring `Result::Status` in `core_framework.h`. -/
inductive ResultStatus
  | SUCCESS
  | FAILURE
  | PENDING
  | PROCESSING
  deriving DecidableEq

/-- Result value object of `core_framework.h`; a default-constructed
`Result` has status PENDING and empty message, data and timestamp. -/
structure Result where
  status : ResultStatus := .PENDING
  message : String := ""
  data : String := ""
  timestamp : String := ""
  deriving DecidableEq

/-- Task configuration of `task_management.h`.  `parameters` stands for
the `std::map<std::string,std::string>`; `timeout` is the stored number
of seconds.  The C++ default constructor gives priority MEDIUM,
`isAsync = false` and a 300 second timeout. -/
structure TaskConfig where
  taskName : String := ""
  priority : TaskPriority := .MEDIUM
  isAsync : Bool := false
  timeout : Nat := 300
  parameters : List (String × String) := []

/-- Concrete dataset kinds of `data_management.h`.  The algorithms tell
them apart at runtime with `dynamic_pointer_cast`; the scheduler treats
the handle opaquely.  A `NumericDataset` carries its vector of samples
(exact rationals in place of doubles), a `TextDataset` its lines. -/
inductive Dataset
  | numeric (data : List ℚ)
  | text (lines : List String)

/-- Statistics cached by `NumericDataset::calculateStatistics`.  The
C++ field `std_dev_` stores the square root of `varPop`; the model
keeps the radicand exact and states square-root facts with
`Real.sqrt`. -/
structure NumStats where
  minValue : ℚ
  maxValue : ℚ
  mean : ℚ
  varPop : ℚ

/-- Embedding of `NumericDataset::calculateStatistics`: on an empty
vector every statistic is zeroed; otherwise mean is the sum divided by
the size and `varPop` is the mean of squared deviations (population
form, dividing by n). -/
def calculateStatistics : List ℚ → NumStats
  | [] => ⟨0, 0, 0, 0⟩
  | x :: xs =>
      let data := x :: xs
      let mean := data.foldl (fun acc v => acc + v) 0 / (data.length : ℚ)
      let sumSq := data.foldl (fun acc v => acc + (v - mean) * (v - mean)) 0
      ⟨xs.foldl min x, xs.foldl max x, mean, sumSq / (data.length : ℚ)⟩

/-- Insertion step of the ascending sort used to model `std::sort` on
the copied sample vector. -/
def insertAsc (v : ℚ) : List ℚ → List ℚ
  | [] => [v]
  | x :: xs => if v ≤ x then v :: x :: xs else x :: insertAsc v xs

/-- Ascending sort of the samples (deterministic model of `std::sort`
on doubles, which is a total order on the sample values used here). -/
def sortAsc : List ℚ → List ℚ
  | [] => []
  | x :: xs => insertAsc x (sortAsc xs)

/-- Median computation of `StatisticalAnalysis::execute`: sort a copy,
then average the two middle elements for even sizes, take the middle
element for odd sizes. -/
def medianOf (data : List ℚ) : ℚ :=
  let s := sortAsc data
  let n := s.length
  if n % 2 = 0 then (s.getD (n / 2 - 1) 0 + s.getD (n / 2) 0) / 2
  else s.getD (n / 2) 0

/-- Word splitting of `TextDataset::calculateWordFrequency`, where
`iss >> word` yields the maximal whitespace-free chunks of a line. -/
def splitWords (line : String) : List String :=
  (line.split (fun c => c.isWhitespace)).filter (fun w => w ≠ "")

/-- Increment of one word count in the frequency table
(`++word_frequency_[word]`), modelling the `std::map` as an
association list. -/
def bumpWord (freq : List (String × Nat)) (w : String) : List (String × Nat) :=
  match freq with
  | [] => [(w, 1)]
  | (w', c) :: rest => if w' = w then (w, c + 1) :: rest else (w', c) :: bumpWord rest w

/-- Embedding of `TextDataset::calculateWordFrequency`: the per-word
occurrence counts over all lines.  The association list keeps words in
first-seen order where the `std::map` keeps key order; every claim only
uses membership, counts and emptiness, which agree. -/
def wordFrequency (lines : List String) : List (String × Nat) :=
  lines.foldl (fun acc line => (splitWords line).foldl bumpWord acc) []

/-- Algorithm instance as the scheduler sees it through the
`IAlgorithm` interface of `core_framework.h`.  `params` is the
`parameters_` map of `BaseAlgorithm` (whose `setParameter` all three
concrete algorithms inherit); `initImpl` models the virtual
initialization entry point as a function of the current parameters;
`execImpl` models the virtual `execute`, with a thrown C++ exception
rendered as `Except.error` carrying the `what()` string. -/
structure Algorithm where
  params : List (String × String)
  initImpl : List (String × String) → Bool
  execImpl : List (String × String) → Dataset → Except String Result

/-- Embedding of `BaseAlgorithm::setParameter`: insert or overwrite one
key in the parameter map (the C++ function also returns true, a value
the task execution loop discards). -/
def setParam (ps : List (String × String)) (k v : String) : List (String × String) :=
  match ps with
  | [] => [(k, v)]
  | (k', v') :: rest => if k' = k then (k, v) :: rest else (k', v') :: setParam rest k v

/-- Parameter application loop of `Task::execute`: every configured
key/value pair is written into the algorithm's parameter map in
order. -/
def applyParamList (ps kvs : List (String × String)) : List (String × String) :=
  kvs.foldl (fun acc kv => setParam acc kv.1 kv.2) ps

/-- Payload string of a successful `StatisticalAnalysis::execute`.  The
C++ streams decimal renderings of doubles; the model renders the exact
rationals, with the standard deviation shown by its exact square since
the root is irrational in general.  No claim inspects this string. -/
def statPayload (data : List ℚ) : String :=
  let s := calculateStatistics data
  "Statistical Analysis Results:\n" ++
  "Mean: " ++ toString s.mean ++ "\n" ++
  "Standard Deviation: sqrt(" ++ toString s.varPop ++ ")\n" ++
  "Min: " ++ toString s.minValue ++ "\n" ++
  "Max: " ++ toString s.maxValue ++ "\n" ++
  "Median: " ++ toString (medianOf data) ++ "\n"

/-- Embedding of `StatisticalAnalysis::execute`: a non-numeric dataset
is rejected with a FAILURE result carrying "Dataset type mismatch" (the
`dynamic_pointer_cast` yields null), an empty numeric dataset with
"Empty dataset", and otherwise a SUCCESS result carries the formatted
statistics. -/
def statisticalExecute (ds : Dataset) : Result :=
  match ds with
  | .text _ => { status := .FAILURE, message := "Dataset type mismatch" }
  | .numeric data =>
      if data.isEmpty then { status := .FAILURE, message := "Empty dataset" }
      else { status := .SUCCESS, data := statPayload data }

/-- StatisticalAnalysis instance: `BaseAlgorithm` initialization always
succeeds (it is not overridden), execution never throws. -/
def statisticalAnalysis : Algorithm :=
  { params := []
    initImpl := fun _ => true
    execImpl := fun _ ds => .ok (statisticalExecute ds) }

/-- Insertion step of the count-descending sort used by
`TextAnalysisAlgorithm::execute` on the frequency pairs. -/
def insertByCount (p : String × Nat) : List (String × Nat) → List (String × Nat)
  | [] => [p]
  | q :: qs => if q.2 < p.2 then p :: q :: qs else q :: insertByCount p qs

/-- Count-descending sort of frequency pairs (deterministic model of
the unstable `std::sort`; ties keep their prior order here, one of the
behaviours the C++ permits). -/
def sortByCountDesc : List (String × Nat) → List (String × Nat)
  | [] => []
  | p :: ps => insertByCount p (sortByCountDesc ps)

/-- Payload string of a successful `TextAnalysisAlgorithm::execute`:
unique word count and the ten most frequent words. -/
def textPayload (freq : List (String × Nat)) : String :=
  "Text Analysis Results:\n" ++
  "Total unique words: " ++ Nat.repr freq.length ++ "\n" ++
  "Top 10 most frequent words:\n" ++
  String.join (((sortByCountDesc freq).take 10).map
    (fun p => p.1 ++ ": " ++ Nat.repr p.2 ++ " occurrences\n"))

/-- Embedding of `TextAnalysisAlgorithm::execute`: a non-text dataset
is rejected with a FAILURE result carrying "Dataset type mismatch", an
empty frequency table with "Empty dataset", and otherwise a SUCCESS
result carries the frequency report. -/
def textAnalysisExecute (ds : Dataset) : Result :=
  match ds with
  | .numeric _ => { status := .FAILURE, message := "Dataset type mismatch" }
  | .text lines =>
      let freq := wordFrequency lines
      if freq.isEmpty then { status := .FAILURE, message := "Empty dataset" }
      else { status := .SUCCESS, data := textPayload freq }

/-- TextAnalysisAlgorithm instance: `BaseAlgorithm` initialization
always succeeds, execution never throws. -/
def textAnalysis : Algorithm :=
  { params := []
    initImpl := fun _ => true
    execImpl := fun _ ds => .ok (textAnalysisExecute ds) }

/-- Task record of `task_management.h`.  Time points are `Nat`
instants; a default-constructed C++ time_point is the epoch, modelled
as 0. -/
structure Task where
  taskId : String
  userId : String
  config : TaskConfig
  status : TaskStatus
  dataset : Dataset
  algorithm : Algorithm
  result : Result := {}
  creationTime : Nat
  startTime : Nat := 0
  endTime : Nat := 0
  errorMessage : String := ""

/-- Embedding of `Task::execute`, run by a worker at instant `now`.
The status is first set to RUNNING and `startTime` stamped; the
configured parameters are applied; a false initialization throws
`PlatformException("Algorithm initialization failed")`, which the
function's own catch block turns into FAILED with that message; a
throwing `execute` is likewise caught into FAILED with the error text;
a returned SUCCESS result gives COMPLETED, any other returned result
gives FAILED with the result's message.  The boolean mirrors the C++
return value: false exactly on the catch path. -/
def Task.execute (t : Task) (now : Nat) : Task × Bool :=
  let ps := applyParamList t.algorithm.params t.config.parameters
  let alg := { t.algorithm with params := ps }
  let t1 := { t with status := .RUNNING, startTime := now, algorithm := alg }
  if alg.initImpl ps = false then
    ({ t1 with status := .FAILED
               errorMessage := "Algorithm initialization failed"
               endTime := now }, false)
  else
    match alg.execImpl ps t1.dataset with
    | .error e =>
        ({ t1 with status := .FAILED, errorMessage := e, endTime := now }, false)
    | .ok r =>
        if r.status = .SUCCESS then
          ({ t1 with result := r, status := .COMPLETED, endTime := now }, true)
        else
          ({ t1 with result := r, status := .FAILED
                     errorMessage := r.message, endTime := now }, true)

/-- Embedding of `Task::cancel` at instant `now`: only a QUEUED or
RUNNING task is switched to CANCELLED (with `endTime` stamped) and
acknowledged with true; any other status leaves the record untouched
and yields false. -/
def Task.cancel (t : Task) (now : Nat) : Task × Bool :=
  if t.status = .QUEUED ∨ t.status = .RUNNING then
    ({ t with status := .CANCELLED, endTime := now }, true)
  else
    (t, false)

/-- Embedding of `TaskComparator::operator()`: true when `t1` sits
below `t2` in the max-heap order, i.e. strictly lower priority, or
equal priority and strictly later creation. -/
def TaskComparator (t1 t2 : Task) : Bool :=
  if t1.config.priority ≠ t2.config.priority then
    decide (t1.config.priority.toNat < t2.config.priority.toNat)
  else
    decide (t2.creationTime < t1.creationTime)

/-- Removal of the top of the `std::priority_queue` ordered by
`TaskComparator`: `dequeueHighest q` returns a maximal record together
with the remaining records, or `none` on an empty queue.  Among
records the comparator cannot separate (equal priority and equal
creation instant) the C++ leaves the choice unspecified; the model
keeps the earliest-listed one. -/
def dequeueHighest : List Task → Option (Task × List Task)
  | [] => none
  | t :: ts =>
      match dequeueHighest ts with
      | none => some (t, [])
      | some (m, rest) =>
          if TaskComparator t m then some (m, t :: rest) else some (t, ts)

/-- Full drain order of a queue: repeatedly dequeue the highest record
and record its id, with the queue length as structural fuel. -/
def drainFuel : Nat → List Task → List String
  | 0, _ => []
  | n + 1, q =>
      match dequeueHighest q with
      | none => []
      | some (m, rest) => m.taskId :: drainFuel n rest

/-- Order in which a single worker would drain the given pending
records. -/
def drainOrder (q : List Task) : List String :=
  drainFuel q.length q

/-- Registry and scheduler state of `TaskManager`: the id-to-record
map, the pending queue (held as ids: the C++ queue holds shared
pointers into the same records the map holds), and the monotonic
counter behind `generateTaskId`. -/
structure TaskManager where
  nextId : Nat := 0
  queue : List String := []
  taskMap : List (String × Task) := []

/-- Freshly constructed manager: empty registry, empty queue. -/
def initialManager : TaskManager := {}

/-- Embedding of `Task::generateTaskId`: a unique id from the monotonic
counter (the C++ id also embeds a creation timestamp; the counter alone
carries the uniqueness). -/
def generateTaskId (n : Nat) : String :=
  "TASK_" ++ Nat.repr n

/-- Map update used for writing a record back under its id
(`std::map::operator[]` assignment). -/
def updateAssoc (m : List (String × Task)) (k : String) (t : Task) : List (String × Task) :=
  match m with
  | [] => [(k, t)]
  | (k', t') :: rest => if k' = k then (k, t) :: rest else (k', t') :: updateAssoc rest k t

/-- Map lookup used by the three query methods
(`std::map::find` followed by the end-iterator test). -/
def findTask (m : List (String × Task)) (id : String) : Option Task :=
  match m with
  | [] => none
  | (k, t) :: rest => if k = id then some t else findTask rest id

/-- Embedding of `TaskManager::submitTask` at instant `now`: a fresh
record is created in status CREATED with `creationTime` stamped, then
registered in the map and pushed on the pending queue inside one
critical section; the new id is returned immediately. -/
def submitTask (m : TaskManager) (userId : String) (cfg : TaskConfig)
    (ds : Dataset) (alg : Algorithm) (now : Nat) : TaskManager × String :=
  let id := generateTaskId m.nextId
  let t : Task :=
    { taskId := id, userId := userId, config := cfg, status := .CREATED
      dataset := ds, algorithm := alg, creationTime := now }
  ({ nextId := m.nextId + 1
     queue := m.queue ++ [id]
     taskMap := updateAssoc m.taskMap id t }, id)

/-- Embedding of `TaskManager::getTaskStatus`: the status of a known
id, or a thrown `PlatformException("Task not found: <id>")` for an
unknown one.  The manager is returned alongside to make the frame
explicit: the C++ method only reads under the lock. -/
def getTaskStatus (m : TaskManager) (id : String) : TaskManager × Except String TaskStatus :=
  match findTask m.taskMap id with
  | some t => (m, .ok t.status)
  | none => (m, .error ("Task not found: " ++ id))

/-- Embedding of `TaskManager::getTaskResult`: a copy of the stored
result for a known id, or a thrown `PlatformException` for an unknown
one. -/
def getTaskResult (m : TaskManager) (id : String) : TaskManager × Except String Result :=
  match findTask m.taskMap id with
  | some t => (m, .ok t.result)
  | none => (m, .error ("Task not found: " ++ id))

/-- Embedding of `TaskManager::cancelTask` at instant `now`: a known id
has `Task::cancel` applied to its record in place; an unknown id is
answered with false, without any error. -/
def cancelTask (m : TaskManager) (id : String) (now : Nat) : TaskManager × Bool :=
  match findTask m.taskMap id with
  | some t =>
      ({ m with taskMap := updateAssoc m.taskMap id (t.cancel now).1 }, (t.cancel now).2)
  | none => (m, false)

/-- One worker turn of `TaskManager::workerFunction` at instant `now`:
the highest-ordered pending id is popped and its record executed, the
mutation visible through the map (the C++ queue and map alias one
record).  An empty queue leaves the manager unchanged. -/
def workerStep (m : TaskManager) (now : Nat) : TaskManager :=
  match m.queue with
  | [] => m
  | _ :: _ =>
      let pending := m.queue.filterMap (fun id => findTask m.taskMap id)
      match dequeueHighest pending with
      | none => m
      | some (top, _) =>
          let (t', _) := top.execute now
          { m with queue := m.queue.erase top.taskId
                   taskMap := updateAssoc m.taskMap top.taskId t' }

/-- Algorithm implementation whose initialization reports failure, as
an `IAlgorithm` implementation may (in the repository,
`KMeansClusteringAlgorithm::initialize` answers false when its "k" or
"maxIterations" parameter does not parse as an integer). -/
def failInitAlgorithm : Algorithm :=
  { params := []
    initImpl := fun _ => false
    execImpl := fun _ ds => .ok (statisticalExecute ds) }

/-- Concrete task whose algorithm refuses to initialize, used as a
witness input. -/
def taskC4 : Task :=
  { taskId := "T4", userId := "u", config := {}, status := .CREATED
    dataset := .numeric [1], algorithm := failInitAlgorithm, creationTime := 0 }

/-- Algorithm implementation whose execution throws, as an
`IAlgorithm` implementation may; the error text is what `what()`
reports at the worker's catch block. -/
def throwingAlgorithm : Algorithm :=
  { params := []
    initImpl := fun _ => true
    execImpl := fun _ _ => .error "boom" }

/-- Concrete task whose algorithm throws during execution, used as a
witness input. -/
def taskC5 : Task :=
  { taskId := "T5", userId := "u", config := {}, status := .CREATED
    dataset := .numeric [1], algorithm := throwingAlgorithm, creationTime := 0 }

/-- Concrete task running the statistical analysis over the sample
[1,2,3,4,5]. -/
def taskC9 : Task :=
  { taskId := "T9", userId := "u", config := {}, status := .CREATED
    dataset := .numeric [1, 2, 3, 4, 5], algorithm := statisticalAnalysis
    creationTime := 0 }

/-- Concrete pending task A of the spec's dequeue-order scenario:
priority LOW, submitted at instant 0. -/
def taskA : Task :=
  { taskId := "A", userId := "u", config := { priority := .LOW }, status := .CREATED
    dataset := .numeric [], algorithm := statisticalAnalysis, creationTime := 0 }

/-- Concrete pending task B: priority HIGH, submitted at instant 1. -/
def taskB : Task :=
  { taskId := "B", userId := "u", config := { priority := .HIGH }, status := .CREATED
    dataset := .numeric [], algorithm := statisticalAnalysis, creationTime := 1 }

/-- Concrete pending task C: priority HIGH, submitted at instant 2. -/
def taskC : Task :=
  { taskId := "C", userId := "u", config := { priority := .HIGH }, status := .CREATED
    dataset := .numeric [], algorithm := statisticalAnalysis, creationTime := 2 }

/-- Concrete RUNNING record used as an input to witnesses. -/
def taskC6 : Task :=
  { taskId := "TASK_0", userId := "u", config := {}, status := .RUNNING
    dataset := .numeric [], algorithm := statisticalAnalysis, creationTime := 0 }

/-- Concrete one-record registry used as an input to witnesses. -/
def mgrC6 : TaskManager :=
  { nextId := 1, queue := [], taskMap := [("TASK_0", taskC6)] }

/-- Helper: writing back the very record a key already maps to leaves
the map equal. -/
theorem updateAssoc_self (m : List (String × Task)) (id : String) (t : Task)
    (h : findTask m id = some t) : updateAssoc m id t = m := by
  induction m with
  | nil => simp [findTask] at h
  | cons p rest ih =>
      obtain ⟨k, u⟩ := p
      by_cases hk : k = id
      · subst hk
        simp [findTask] at h
        simp [updateAssoc, h]
      · simp [findTask, hk] at h
        simp [updateAssoc, hk, ih h]

/-- C1: the spec's state machine has submit create the record in
CREATED and the enqueue transition set it to QUEUED.  The code never
assigns QUEUED anywhere: a freshly submitted, still-pending task reads
back as CREATED, and — because `Task::cancel` only acts on QUEUED or
RUNNING — the pending task cannot even be cancelled, although the spec
makes CANCELLED reachable from QUEUED.  The QUEUED enum value and the
QUEUED branch of `Task::cancel` are dead code, so the spec is the
intent and the missing transition a slip in the code. -/
theorem submitted_task_reads_CREATED_not_QUEUED :
    (getTaskStatus (submitTask initialManager "alice" {} (.numeric [1]) statisticalAnalysis 0).1
        (submitTask initialManager "alice" {} (.numeric [1]) statisticalAnalysis 0).2).2
      = .ok .CREATED
    ∧ TaskStatus.CREATED ≠ TaskStatus.QUEUED
    ∧ (cancelTask (submitTask initialManager "alice" {} (.numeric [1]) statisticalAnalysis 0).1
        (submitTask initialManager "alice" {} (.numeric [1]) statisticalAnalysis 0).2 1).2
      = false := by
  refine ⟨rfl, by decide, rfl⟩

/-- C3 counterexample: the claim says `cancel` on an unknown id fails
with a NotFound error; the C++ `cancelTask` has a plain boolean result
channel and answers an unknown id with an ordinary false, the registry
untouched — it does not fail at all. -/
theorem cancelTask_unknown_id_returns_false :
    findTask initialManager.taskMap "missing" = none
    ∧ cancelTask initialManager "missing" 0 = (initialManager, false) :=
  ⟨rfl, rfl⟩

/-- C3 (amended): `getStatus` and `getResult` on an unknown id fail
with the NotFound error "Task not found: <id>" and leave the registry
unchanged; `cancel` on an unknown id returns false without raising any
error and also leaves the registry unchanged. -/
theorem unknown_id_query_behaviour (m : TaskManager) (id : String) (now : Nat)
    (h : findTask m.taskMap id = none) :
    getTaskStatus m id = (m, .error ("Task not found: " ++ id))
    ∧ getTaskResult m id = (m, .error ("Task not found: " ++ id))
    ∧ cancelTask m id now = (m, false) := by
  unfold getTaskStatus getTaskResult cancelTask
  rw [h]
  exact ⟨rfl, rfl, rfl⟩

/-- Witness for C3 at the empty registry and the id "ghost". -/
theorem unknown_id_query_behaviour_witness :
    getTaskStatus initialManager "ghost" = (initialManager, .error ("Task not found: " ++ "ghost"))
    ∧ getTaskResult initialManager "ghost" = (initialManager, .error ("Task not found: " ++ "ghost"))
    ∧ cancelTask initialManager "ghost" 5 = (initialManager, false) :=
  unknown_id_query_behaviour initialManager "ghost" 5 rfl

/-- C6: on a known id, `cancelTask` answers true exactly when the
record's status is QUEUED or RUNNING; in that case the record is
rewritten to CANCELLED with `endedAt` stamped to the cancel instant,
and in every other status the manager — queue, map and record — is
returned completely unchanged. -/
theorem cancelTask_known_id_spec (m : TaskManager) (id : String) (t : Task) (now : Nat)
    (h : findTask m.taskMap id = some t) :
    ((cancelTask m id now).2 = true ↔ (t.status = .QUEUED ∨ t.status = .RUNNING))
    ∧ (t.status = .QUEUED ∨ t.status = .RUNNING →
        cancelTask m id now
          = ({ m with taskMap :=
                updateAssoc m.taskMap id { t with status := .CANCELLED, endTime := now } }, true))
    ∧ (¬(t.status = .QUEUED ∨ t.status = .RUNNING) →
        cancelTask m id now = (m, false)) := by
  unfold cancelTask
  rw [h]
  unfold Task.cancel
  by_cases hs : t.status = .QUEUED ∨ t.status = .RUNNING
  · simp [hs]
  · simp [hs, updateAssoc_self m.taskMap id t h]

/-- Witness for C6: a registry holding one RUNNING task, whose
cancellation is acknowledged with true. -/
theorem cancelTask_known_id_spec_witness :
    (cancelTask mgrC6 "TASK_0" 9).2 = true :=
  (cancelTask_known_id_spec mgrC6 "TASK_0" taskC6 9 rfl).1.mpr (Or.inr rfl)

/-- Helper: the numeric value of a priority determines the priority. -/
theorem TaskPriority.toNat_inj (p q : TaskPriority) : p.toNat = q.toNat ↔ p = q := by
  cases p <;> cases q <;> decide

/-- Helper: the comparator holds exactly when the first task has
strictly lower priority, or equal priority and strictly later
creation. -/
theorem TaskComparator_iff (a b : Task) :
    TaskComparator a b = true ↔
      (a.config.priority.toNat < b.config.priority.toNat
       ∨ (a.config.priority.toNat = b.config.priority.toNat
          ∧ b.creationTime < a.creationTime)) := by
  unfold TaskComparator
  by_cases h : a.config.priority = b.config.priority
  · simp [h]
  · have hn : a.config.priority.toNat ≠ b.config.priority.toNat :=
      fun he => h ((TaskPriority.toNat_inj _ _).mp he)
    simp only [ne_eq, h, not_false_eq_true, if_true, decide_eq_true_eq]
    exact ⟨Or.inl, fun hor => hor.elim id (fun ⟨he, _⟩ => absurd he hn)⟩

/-- Helper: the comparator read as a falsehood. -/
theorem TaskComparator_false_iff (a b : Task) :
    TaskComparator a b = false ↔
      ¬(a.config.priority.toNat < b.config.priority.toNat
        ∨ (a.config.priority.toNat = b.config.priority.toNat
           ∧ b.creationTime < a.creationTime)) := by
  rw [← TaskComparator_iff]
  cases TaskComparator a b <;> simp

/-- Helper: a task is never strictly below itself. -/
theorem TaskComparator_irrefl (a : Task) : TaskComparator a a = false := by
  rw [TaskComparator_false_iff]
  omega

/-- Helper: the comparator is asymmetric. -/
theorem TaskComparator_asymm (a b : Task) (h : TaskComparator a b = true) :
    TaskComparator b a = false := by
  rw [TaskComparator_iff] at h
  rw [TaskComparator_false_iff]
  omega

/-- Helper: not-below is transitive (the comparator is a strict weak
order, as `std::priority_queue` requires). -/
theorem TaskComparator_false_trans (a b c : Task)
    (hab : TaskComparator a b = false) (hbc : TaskComparator b c = false) :
    TaskComparator a c = false := by
  rw [TaskComparator_false_iff] at hab hbc ⊢
  omega

/-- Helper: the record handed out by `dequeueHighest` is a member, the
rest is the queue with that one occurrence removed, and no queue member
sits above it in the comparator order. -/
theorem dequeueHighest_sound (q : List Task) (h : q ≠ []) :
    ∃ m rest, dequeueHighest q = some (m, rest)
      ∧ q.Perm (m :: rest)
      ∧ ∀ t ∈ q, TaskComparator m t = false := by
  induction q with
  | nil => exact absurd rfl h
  | cons x xs ih =>
      by_cases hxs : xs = []
      · subst hxs
        refine ⟨x, [], rfl, List.Perm.refl _, ?_⟩
        intro t ht
        rw [List.mem_singleton] at ht
        subst ht
        exact TaskComparator_irrefl t
      · obtain ⟨m, rest, hpop, hperm, hmax⟩ := ih hxs
        by_cases hc : TaskComparator x m = true
        · refine ⟨m, x :: rest, ?_, ?_, ?_⟩
          · simp [dequeueHighest, hpop, hc]
          · exact (hperm.cons x).trans (List.Perm.swap m x rest)
          · intro t ht
            rcases List.mem_cons.mp ht with h1 | h2
            · subst h1
              exact TaskComparator_asymm _ _ hc
            · exact hmax t h2
        · have hcf : TaskComparator x m = false := by
            cases hcm : TaskComparator x m
            · rfl
            · exact absurd hcm hc
          refine ⟨x, xs, ?_, List.Perm.refl _, ?_⟩
          · simp [dequeueHighest, hpop, hcf]
          · intro t ht
            rcases List.mem_cons.mp ht with h1 | h2
            · subst h1
              exact TaskComparator_irrefl t
            · exact TaskComparator_false_trans x m t hcf (hmax t h2)

/-- C2: on any non-empty set of pending records, `dequeueHighest`
removes and returns a record that no other pending record beats under
the scheduling order — strictly higher priority first, and inside a
priority band the strictly earlier creation instant first.  In
particular the spec's scenario A(LOW, t0), B(HIGH, t1), C(HIGH, t2)
with t0 < t1 < t2 drains in the order B, C, A. -/
theorem dequeueHighest_spec (q : List Task) (h : q ≠ []) :
    (∃ m rest, dequeueHighest q = some (m, rest)
       ∧ q.Perm (m :: rest)
       ∧ ∀ t ∈ q, TaskComparator m t = false)
    ∧ drainOrder [taskA, taskB, taskC] = ["B", "C", "A"] :=
  ⟨dequeueHighest_sound q h, rfl⟩

/-- Witness for C2 at the singleton queue holding task A, reading off
the concrete drain order B, C, A. -/
theorem dequeueHighest_spec_witness :
    drainOrder [taskA, taskB, taskC] = ["B", "C", "A"] :=
  (dequeueHighest_spec [taskA] (by simp)).2

/-- C4: when the algorithm's initialization (run after the configured
parameters were applied) answers false, the executed task ends FAILED
with error message exactly "Algorithm initialization failed", is not
COMPLETED, its stored result is untouched, and the outcome is the same
for every possible execution body — the model's rendering of the fact
that `execute()` is never called on that path. -/
theorem failed_initialization_spec (t : Task) (now : Nat)
    (h : t.algorithm.initImpl (applyParamList t.algorithm.params t.config.parameters) = false) :
    (t.execute now).1.status = .FAILED
    ∧ (t.execute now).1.errorMessage = "Algorithm initialization failed"
    ∧ (t.execute now).1.status ≠ .COMPLETED
    ∧ (t.execute now).1.result = t.result
    ∧ ∀ f, ((Task.execute { t with algorithm := { t.algorithm with execImpl := f } } now).1.status
              = (t.execute now).1.status
           ∧ (Task.execute { t with algorithm := { t.algorithm with execImpl := f } } now).1.errorMessage
              = (t.execute now).1.errorMessage
           ∧ (Task.execute { t with algorithm := { t.algorithm with execImpl := f } } now).1.result
              = (t.execute now).1.result) := by
  unfold Task.execute
  simp [h]

/-- Witness for C4: the task whose algorithm refuses to initialize ends
FAILED with the fixed message. -/
theorem failed_initialization_spec_witness :
    (taskC4.execute 2).1.status = .FAILED
    ∧ (taskC4.execute 2).1.errorMessage = "Algorithm initialization failed" := by
  have h := failed_initialization_spec taskC4 2 rfl
  exact ⟨h.1, h.2.1⟩

/-- C5: for a task whose initialization succeeded, the worker's
terminal outcome follows the algorithm's execution: a thrown error is
caught (the embedding of `Task::execute` returns normally, with false,
so nothing propagates into the worker loop) and gives FAILED with the
error's description; a returned SUCCESS result gives COMPLETED with the
result stored; any other returned result gives FAILED with the error
message taken from the result's message. -/
theorem execute_outcome_spec (t : Task) (now : Nat)
    (h : t.algorithm.initImpl (applyParamList t.algorithm.params t.config.parameters) = true) :
    (∀ e, t.algorithm.execImpl (applyParamList t.algorithm.params t.config.parameters) t.dataset
            = .error e →
        (t.execute now).1.status = .FAILED
        ∧ (t.execute now).1.errorMessage = e
        ∧ (t.execute now).2 = false)
    ∧ (∀ r, t.algorithm.execImpl (applyParamList t.algorithm.params t.config.parameters) t.dataset
            = .ok r →
        (r.status = .SUCCESS →
            (t.execute now).1.status = .COMPLETED ∧ (t.execute now).1.result = r)
        ∧ (r.status ≠ .SUCCESS →
            (t.execute now).1.status = .FAILED
            ∧ (t.execute now).1.errorMessage = r.message
            ∧ (t.execute now).1.result = r)) := by
  unfold Task.execute
  simp only [h, Bool.true_eq_false, if_false]
  constructor
  · intro e he
    simp [he]
  · intro r hr
    simp only [hr]
    constructor
    · intro hs
      simp [hs]
    · intro hs
      simp [hs]

/-- Witness for C5: the task whose algorithm throws "boom" ends FAILED
with that description. -/
theorem execute_outcome_spec_witness :
    (taskC5.execute 3).1.status = .FAILED
    ∧ (taskC5.execute 3).1.errorMessage = "boom" := by
  have h := (execute_outcome_spec taskC5 3 rfl).1 "boom" rfl
  exact ⟨h.1, h.2.1⟩

/-- C7: the `asyncHint` flag and the stored timeout are inert — a task
whose configuration differs only in those two fields is scheduled at
the same place by the comparator and executed to the same status, error
message, result and return flag, and `submitTask` (which never blocks
in the embedding: it is a total function returning at once) hands back
the same id and the same queue for both configurations. -/
theorem asyncHint_timeout_inert (t : Task) (b : Bool) (n : Nat) (u : Task) (now : Nat)
    (m : TaskManager) (uid : String) (cfg : TaskConfig) (ds : Dataset) (alg : Algorithm) :
    ((Task.execute { t with config := { t.config with isAsync := b, timeout := n } } now).1.status
        = (t.execute now).1.status
     ∧ (Task.execute { t with config := { t.config with isAsync := b, timeout := n } } now).1.errorMessage
        = (t.execute now).1.errorMessage
     ∧ (Task.execute { t with config := { t.config with isAsync := b, timeout := n } } now).1.result
        = (t.execute now).1.result
     ∧ (Task.execute { t with config := { t.config with isAsync := b, timeout := n } } now).2
        = (t.execute now).2)
    ∧ TaskComparator { t with config := { t.config with isAsync := b, timeout := n } } u
        = TaskComparator t u
    ∧ TaskComparator u { t with config := { t.config with isAsync := b, timeout := n } }
        = TaskComparator u t
    ∧ (submitTask m uid { cfg with isAsync := b, timeout := n } ds alg now).2
        = (submitTask m uid cfg ds alg now).2
    ∧ (submitTask m uid { cfg with isAsync := b, timeout := n } ds alg now).1.queue
        = (submitTask m uid cfg ds alg now).1.queue := by
  refine ⟨?_, rfl, rfl, rfl, rfl⟩
  unfold Task.execute
  by_cases hinit :
      t.algorithm.initImpl (applyParamList t.algorithm.params t.config.parameters) = false
  · simp [hinit]
  · simp only [hinit, if_false]
    cases hexec :
        t.algorithm.execImpl (applyParamList t.algorithm.params t.config.parameters) t.dataset with
    | error e => simp [hinit, hexec]
    | ok r =>
        by_cases hs : r.status = .SUCCESS
        · simp [hinit, hexec, hs]
        · simp [hinit, hexec, hs]

/-- C8: a dataset of a concrete kind the algorithm does not support is
answered with a FAILURE result carrying the descriptive message
"Dataset type mismatch" — no crash, the execution entry point returns a
plain result — and a task pairing the text-frequency algorithm with any
numeric sample dataset ends FAILED with that message, never
COMPLETED.  The symmetric pairing (statistical analysis against a text
dataset) is rejected the same way. -/
theorem type_mismatch_spec (data : List ℚ) (lines : List String)
    (id uid : String) (cfg : TaskConfig) (st : TaskStatus) (r0 : Result) (ct now : Nat) :
    textAnalysisExecute (.numeric data)
        = { status := .FAILURE, message := "Dataset type mismatch" }
    ∧ statisticalExecute (.text lines)
        = { status := .FAILURE, message := "Dataset type mismatch" }
    ∧ (Task.execute
          { taskId := id, userId := uid, config := cfg, status := st
            dataset := .numeric data, algorithm := textAnalysis
            result := r0, creationTime := ct } now).1.status = .FAILED
    ∧ (Task.execute
          { taskId := id, userId := uid, config := cfg, status := st
            dataset := .numeric data, algorithm := textAnalysis
            result := r0, creationTime := ct } now).1.errorMessage = "Dataset type mismatch"
    ∧ (Task.execute
          { taskId := id, userId := uid, config := cfg, status := st
            dataset := .numeric data, algorithm := textAnalysis
            result := r0, creationTime := ct } now).1.status ≠ .COMPLETED := by
  refine ⟨rfl, rfl, rfl, rfl, ?_⟩
  intro hcontra
  exact absurd hcontra (by simp [Task.execute, textAnalysis, textAnalysisExecute])

/-- C9: on the sample [1,2,3,4,5] the numeric statistics give mean 3,
population variance 2 (so the stored standard deviation, the square
root of that variance, is the square root of 2), and median 3; the
statistical analysis answers SUCCESS and a task running it over that
dataset ends COMPLETED. -/
theorem statistical_scenario :
    (calculateStatistics [1, 2, 3, 4, 5]).mean = 3
    ∧ (calculateStatistics [1, 2, 3, 4, 5]).varPop = 2
    ∧ Real.sqrt ((calculateStatistics [1, 2, 3, 4, 5]).varPop : ℝ) = Real.sqrt 2
    ∧ medianOf [1, 2, 3, 4, 5] = 3
    ∧ (statisticalExecute (.numeric [1, 2, 3, 4, 5])).status = .SUCCESS
    ∧ (taskC9.execute 1).1.status = .COMPLETED := by
  have hv : (calculateStatistics [1, 2, 3, 4, 5]).varPop = 2 := by
    norm_num [calculateStatistics]
  refine ⟨?_, hv, ?_, ?_, rfl, rfl⟩
  · norm_num [calculateStatistics]
  · rw [hv]
    norm_num
  · norm_num [medianOf, sortAsc, insertAsc]

/-- C10: `getTaskStatus` and `getTaskResult` are pure observers — for
any id, known or unknown, they hand the manager back untouched (map,
queue and every record included), and two consecutive `getTaskResult`
calls answer with identical results. -/
theorem status_result_queries_are_observers (m : TaskManager) (id : String) :
    (getTaskStatus m id).1 = m
    ∧ (getTaskResult m id).1 = m
    ∧ (getTaskResult (getTaskResult m id).1 id).2 = (getTaskResult m id).2
    ∧ (getTaskStatus (getTaskStatus m id).1 id).2 = (getTaskStatus m id).2 := by
  unfold getTaskStatus getTaskResult
  cases h : findTask m.taskMap id <;> simp [h]

end DataPlatform
